import Mathlib

/-!
Shallow embedding of the testpipeline frontend core:
the RepositoryForm submit and analyze handlers, the App coordinator state,
and the PipelineVisualizer renderer, together with theorems settling the
specification claims about them.

Asynchronous handlers are embedded as pure functions from the form state and
the outcome the transport would return (if called) to the list of observer
notifications they emit, in emission order; the analyze handler additionally
returns the updated form state. A request event in the list records that the
handler actually issued the HTTP call.
-/

namespace TestPipeline

/-- JavaScript truthiness of a string: only the empty string is falsy.
Models the negation test on formData.repository_url in RepositoryForm. -/
def strTruthy (s : String) : Bool := s != ""

/-- JavaScript truthiness of an optional string: undefined (none) and the
empty string are falsy. Models tests such as the one on pipeline.summary. -/
def optStrTruthy : Option String → Bool
  | none => false
  | some s => strTruthy s

/-- The JavaScript or-chain a or-else b for an optional string a: yields a
when a is defined and truthy, otherwise b. -/
def jsOr (a : Option String) (b : String) : String :=
  match a with
  | some s => if s == "" then b else s
  | none => b

/-- The form state held by RepositoryForm: four string fields, empty string
when unset. Field names follow the source. -/
structure FormData where
  repository_url : String
  repository_content : String
  language : String
  framework : String
deriving Repr, DecidableEq

/-- One stage of a pipeline document, as consumed by PipelineVisualizer. -/
structure Stage where
  name : String
  type : String
  description : String
  commands : List String
  tools : List String
  estimatedDuration : String
deriving Repr, DecidableEq

/-- A pipeline document returned by the generate endpoint. The stages,
summary and recommendations fields may each be absent (undefined or null in
JavaScript), which the renderer treats through truthiness tests. -/
structure PipelineDocument where
  stages : Option (List Stage)
  summary : Option String
  recommendations : Option (List String)
deriving Repr, DecidableEq

/-- The body of a successful analyze-repository response, restricted to the
two fields the handler consumes; each may be absent or empty. -/
structure AnalyzeResponse where
  language : Option String
  framework : Option String
deriving Repr, DecidableEq

/-- A rejected axios call, restricted to the two places the handlers read:
the optional chain err.response?.data?.detail collapsed to one optional
string, and err.message. -/
structure AxiosError where
  detail : Option String
  message : Option String
deriving Repr, DecidableEq

/-- The error message the catch blocks build:
err.response?.data?.detail or-else err.message or-else the fallback. -/
def resolveErrorMessage (err : AxiosError) (fallback : String) : String :=
  jsOr err.detail (jsOr err.message fallback)

/-- One observer notification emitted by a RepositoryForm handler, in the
order the source calls its props, plus a record of each HTTP request issued. -/
inductive Event where
  | onLoadingChange (isLoading : Bool)
  | request (endpoint : String) (body : FormData)
  | onPipelineGenerated (doc : PipelineDocument)
  | onError (msg : Option String)
deriving Repr, DecidableEq

/-- The guard shared by handleSubmit and handleAnalyze: true exactly when
both repository_url and repository_content are JavaScript-falsy, that is,
exactly the empty string. -/
def missingInput (fd : FormData) : Bool :=
  (fd.repository_url == "") && (fd.repository_content == "")

/-- The handleSubmit handler of RepositoryForm. The net argument is the
outcome the transport would produce for the generate request if it were
issued; the returned list holds the observer calls in order. -/
def handleSubmit (fd : FormData) (net : Except AxiosError PipelineDocument) :
    List Event :=
  if missingInput fd then
    [Event.onError (some "Please provide either a repository URL or code content")]
  else
    [Event.onLoadingChange true, Event.request "/api/generate-pipeline" fd] ++
    (match net with
     | Except.ok resp => [Event.onPipelineGenerated resp]
     | Except.error err =>
        [Event.onError (some (resolveErrorMessage err "Failed to generate pipeline"))]) ++
    [Event.onLoadingChange false]

/-- The value stored into a form field from an analyze response field:
response.data.language or-else the empty string, likewise for framework. -/
def stringOrEmpty (v : Option String) : String := jsOr v ""

/-- The handleAnalyze handler of RepositoryForm: returns the emitted
observer calls and the form state after the handler runs. On success it
rewrites language and framework through stringOrEmpty and clears the error
observer with none; on failure it reports the resolved message. -/
def handleAnalyze (fd : FormData) (net : Except AxiosError AnalyzeResponse) :
    List Event × FormData :=
  if missingInput fd then
    ([Event.onError (some "Please provide either a repository URL or code content to analyze")], fd)
  else
    match net with
    | Except.ok resp =>
        ([Event.onLoadingChange true, Event.request "/api/analyze-repository" fd,
          Event.onError none, Event.onLoadingChange false],
         { fd with language := stringOrEmpty resp.language,
                   framework := stringOrEmpty resp.framework })
    | Except.error err =>
        ([Event.onLoadingChange true, Event.request "/api/analyze-repository" fd,
          Event.onError (some (resolveErrorMessage err "Failed to analyze repository")),
          Event.onLoadingChange false], fd)

/-- The coordinator state held by the App component. -/
structure AppState where
  pipeline : Option PipelineDocument
  loading : Bool
  error : Option String
deriving Repr, DecidableEq

/-- App.handlePipelineGenerated: stores the document and clears the error. -/
def handlePipelineGenerated (s : AppState) (doc : PipelineDocument) : AppState :=
  { s with pipeline := some doc, error := none }

/-- App.handleError: stores the message and clears the pipeline. -/
def handleError (s : AppState) (msg : Option String) : AppState :=
  { s with error := msg, pipeline := none }

/-- App.handleLoadingChange: stores the loading flag. -/
def handleLoadingChange (s : AppState) (isLoading : Bool) : AppState :=
  { s with loading := isLoading }

/-- Dispatch of one observer notification to the App callback wired to it;
a request event is the HTTP call itself and touches no coordinator state. -/
def applyEvent (s : AppState) : Event → AppState
  | Event.onLoadingChange b => handleLoadingChange s b
  | Event.request _ _ => s
  | Event.onPipelineGenerated doc => handlePipelineGenerated s doc
  | Event.onError msg => handleError s msg

/-- Folding a handler trace into the coordinator state, in emission order. -/
def applyEvents (s : AppState) (events : List Event) : AppState :=
  events.foldl applyEvent s

/-- The sequence of values the loading observer receives from a trace. -/
def loadingEvents (events : List Event) : List Bool :=
  events.filterMap fun e =>
    match e with
    | Event.onLoadingChange b => some b
    | _ => none

/-- The sequence of values the error observer receives from a trace. -/
def errorEvents (events : List Event) : List (Option String) :=
  events.filterMap fun e =>
    match e with
    | Event.onError msg => some msg
    | _ => none

/-- The endpoints of the HTTP requests actually issued in a trace. -/
def requestEvents (events : List Event) : List String :=
  events.filterMap fun e =>
    match e with
    | Event.request endpoint _ => some endpoint
    | _ => none

/-- Identifier for one of the seven svg icons defined in the stageIcons
object of PipelineVisualizer. -/
inductive Icon where
  | unit_test_backend
  | unit_test_frontend
  | integration_test_backend
  | integration_test_frontend
  | code_quality
  | performance_test
  | security_test
deriving Repr, DecidableEq

/-- The stageIcons object of PipelineVisualizer, as a lookup from the type
tag to the icon: defined for exactly the seven keys of the source object. -/
def stageIcons (t : String) : Option Icon :=
  if t == "unit_test_backend" then some Icon.unit_test_backend
  else if t == "unit_test_frontend" then some Icon.unit_test_frontend
  else if t == "integration_test_backend" then some Icon.integration_test_backend
  else if t == "integration_test_frontend" then some Icon.integration_test_frontend
  else if t == "code_quality" then some Icon.code_quality
  else if t == "performance_test" then some Icon.performance_test
  else if t == "security_test" then some Icon.security_test
  else none

/-- The seven type tags for which stageIcons is defined. -/
def recognizedTags : List String :=
  ["unit_test_backend", "unit_test_frontend", "integration_test_backend",
   "integration_test_frontend", "code_quality", "performance_test", "security_test"]

/-- The display produced for one stage entry inside the pipeline card. -/
structure StageDisplay where
  icon : Icon
  name : String
  typeBadge : String
  description : String
  commands : List String
  tools : List String
  duration : String
deriving Repr, DecidableEq

/-- The summary section of the display, present only when the summary text
is truthy; the recommendation list is present only when recommendations is
defined and nonempty. -/
structure SummarySection where
  summaryText : String
  recommendationList : Option (List String)
deriving Repr, DecidableEq

/-- The display produced for a whole pipeline document: the ordered stage
entries of the card plus the optional summary section. -/
structure PipelineDisplay where
  stageEntries : List StageDisplay
  summarySection : Option SummarySection
deriving Repr, DecidableEq

/-- The global regex replace of the source badge text, which substitutes a
space for every underscore character and changes nothing else. -/
def replaceUnderscores (s : String) : String :=
  String.mk (s.data.map fun c => if c = '_' then ' ' else c)

/-- The display of one stage: icon looked up in stageIcons with the
code_quality icon as fallback, the name verbatim, the badge text obtained
from the type tag by replacing underscores with spaces, the description,
commands and tools verbatim, and the duration text with its fixed label. -/
def renderStage (stage : Stage) : StageDisplay :=
  { icon := (stageIcons stage.type).getD Icon.code_quality,
    name := stage.name,
    typeBadge := replaceUnderscores stage.type,
    description := stage.description,
    commands := stage.commands,
    tools := stage.tools,
    duration := "Estimated Duration: " ++ stage.estimatedDuration }

/-- The summary section of the display: rendered only when pipeline.summary
is truthy, with the recommendations list included only when it is defined
and has positive length, following the two guards in the source. -/
def renderSummary (doc : PipelineDocument) : Option SummarySection :=
  match doc.summary with
  | none => none
  | some s =>
      if s == "" then none
      else
        some { summaryText := s,
               recommendationList :=
                 match doc.recommendations with
                 | none => none
                 | some recs => if recs.length > 0 then some recs else none }

/-- The PipelineVisualizer component as a function from its pipeline prop to
the display it renders: none models the null return taken when the prop is
absent or its stages field is falsy, and otherwise the pipeline container is
produced with one entry per stage and the optional summary section. -/
def PipelineVisualizer : Option PipelineDocument → Option PipelineDisplay
  | none => none
  | some doc =>
      match doc.stages with
      | none => none
      | some stageList =>
          some { stageEntries := stageList.map renderStage,
                 summarySection := renderSummary doc }

/-! Concrete sample values used by counterexamples and witnesses. -/

/-- A form state with a repository URL, as in the spec scenarios. -/
def sampleForm : FormData := ⟨"https://github.com/user/repo", "", "", ""⟩

/-- A form state with both inputs exactly empty. -/
def emptyForm : FormData := ⟨"", "", "", ""⟩

/-- A form state whose repository URL is a single space and whose code
content is empty: both fields are empty or whitespace-only, yet the URL is
JavaScript-truthy. -/
def whitespaceForm : FormData := ⟨" ", "", "", ""⟩

/-- A sample stage with a recognized type tag. -/
def sampleStage : Stage :=
  ⟨"Unit Tests", "unit_test_backend", "Run the unit tests",
   ["npm test"], ["jest"], "5m"⟩

/-- A stage with an unrecognized type tag, from spec scenario 4. -/
def customStage : Stage :=
  ⟨"Custom Stage", "custom_type", "A custom stage", [], [], "1m"⟩

/-- A sample pipeline document with one stage and a summary. -/
def sampleDoc : PipelineDocument :=
  ⟨some [sampleStage], some "One stage", some ["Add coverage"]⟩

/-- The rejection of spec scenario 3, carrying only a detail field. -/
def notFoundError : AxiosError := ⟨some "Not Found", none⟩

/-- A rejection whose detail field is present but empty, with a transport
message. -/
def emptyDetailError : AxiosError := ⟨some "", some "Network Error"⟩

/-! Helper lemmas shared by the claim theorems. -/

theorem jsOr_ne_empty (a : Option String) (b : String) (hb : b ≠ "") :
    jsOr a b ≠ "" := by
  unfold jsOr
  cases a with
  | none => exact hb
  | some s =>
    by_cases h : s = ""
    · simp [h, hb]
    · simp [h]

theorem resolveErrorMessage_ne_empty (err : AxiosError) (fallback : String)
    (hf : fallback ≠ "") : resolveErrorMessage err fallback ≠ "" :=
  jsOr_ne_empty _ _ (jsOr_ne_empty _ _ hf)

/-! Claim theorems. -/

/-- C1, counterexample: on a form state whose repository URL is a single
space and whose code content is empty, both fields are empty or
whitespace-only, yet both handlers issue their network request and raise no
validation error: the guard tests JavaScript truthiness, which does not
trim whitespace. This refutes the claim that such a state fails validation
with no network request. -/
theorem C1_counterexample :
    requestEvents (handleSubmit whitespaceForm (Except.ok sampleDoc)) =
      ["/api/generate-pipeline"]
  ∧ errorEvents (handleSubmit whitespaceForm (Except.ok sampleDoc)) = []
  ∧ requestEvents (handleAnalyze whitespaceForm (Except.ok ⟨none, none⟩)).1 =
      ["/api/analyze-repository"]
  ∧ errorEvents (handleAnalyze whitespaceForm (Except.ok ⟨none, none⟩)).1 = [none] := by
  decide

/-- C1, amended: for every form state in which repository URL and code
content are both exactly the empty string, handleSubmit emits only the
generate validation message, handleAnalyze emits only the analyze
validation message, and neither handler issues a network request. -/
theorem C1_empty_input_validation (fd : FormData)
    (hu : fd.repository_url = "") (hc : fd.repository_content = "")
    (netG : Except AxiosError PipelineDocument)
    (netA : Except AxiosError AnalyzeResponse) :
    handleSubmit fd netG =
      [Event.onError (some "Please provide either a repository URL or code content")]
  ∧ (handleAnalyze fd netA).1 =
      [Event.onError (some "Please provide either a repository URL or code content to analyze")]
  ∧ requestEvents (handleSubmit fd netG) = []
  ∧ requestEvents (handleAnalyze fd netA).1 = [] := by
  have hm : missingInput fd = true := by simp [missingInput, hu, hc]
  simp [handleSubmit, handleAnalyze, hm, requestEvents]

/-- C1, witness: the amended theorem applied to the all-empty form state. -/
theorem C1_witness :
    handleSubmit emptyForm (Except.ok sampleDoc) =
      [Event.onError (some "Please provide either a repository URL or code content")]
  ∧ requestEvents (handleSubmit emptyForm (Except.ok sampleDoc)) = [] :=
  ⟨(C1_empty_input_validation emptyForm rfl rfl (Except.ok sampleDoc)
      (Except.ok ⟨none, none⟩)).1,
   (C1_empty_input_validation emptyForm rfl rfl (Except.ok sampleDoc)
      (Except.ok ⟨none, none⟩)).2.2.1⟩

/-- C2, counterexample: concrete scenario in which a generate call succeeds
and stores the sample document, then an analyze call fails with a Not Found
rejection: afterwards the stored pipeline is none, not the sample document,
because the error callback of the coordinator clears the pipeline slot; the
error text is shown. This refutes the claim that the pipeline remains. -/
theorem C2_counterexample :
    (applyEvents ⟨none, false, none⟩ (handleSubmit sampleForm (Except.ok sampleDoc))).pipeline
      = some sampleDoc
  ∧ (applyEvents
        (applyEvents ⟨none, false, none⟩ (handleSubmit sampleForm (Except.ok sampleDoc)))
        (handleAnalyze sampleForm (Except.error notFoundError)).1).pipeline
      = none
  ∧ (applyEvents
        (applyEvents ⟨none, false, none⟩ (handleSubmit sampleForm (Except.ok sampleDoc)))
        (handleAnalyze sampleForm (Except.error notFoundError)).1).error
      = some "Not Found" := by
  decide

/-- C2, amended: after any failed analyze call, from any coordinator state,
the stored pipeline slot is cleared to none while the error slot holds the
nonempty message of the failure: the analyze failure does clear a pipeline
stored by an earlier successful generate call. -/
theorem C2_analyze_failure_clears_pipeline (s : AppState) (fd : FormData)
    (err : AxiosError) :
    (applyEvents s (handleAnalyze fd (Except.error err)).1).pipeline = none
  ∧ (∃ m, (applyEvents s (handleAnalyze fd (Except.error err)).1).error = some m
        ∧ m ≠ "") := by
  cases hm : missingInput fd with
  | true =>
      refine ⟨?_, "Please provide either a repository URL or code content to analyze",
        ?_, by decide⟩ <;>
        simp [handleAnalyze, hm, applyEvents, applyEvent, handleError,
          handleLoadingChange]
  | false =>
      refine ⟨?_, resolveErrorMessage err "Failed to analyze repository", ?_,
        resolveErrorMessage_ne_empty err _ (by decide)⟩ <;>
        simp [handleAnalyze, hm, applyEvents, applyEvent, handleError,
          handleLoadingChange]

/-- C3, counterexample: on the all-empty form state every submit or analyze
fails locally, and on that failure path the loading observer receives no
notification at all, not the sequence true then false: the handlers return
before the loading observer is ever called. -/
theorem C3_counterexample :
    loadingEvents (handleSubmit emptyForm (Except.error notFoundError)) = []
  ∧ loadingEvents (handleAnalyze emptyForm (Except.error notFoundError)).1 = [] := by
  decide

/-- C3, amended: for every failed generate or analyze call the error
observer is called exactly once with a nonempty message, and the loading
observer receives exactly the sequence true then false when the failure is
a network failure, but is not notified at all when the failure is the local
validation failure. -/
theorem C3_failure_observer_sequences (fd : FormData) (err : AxiosError) :
    loadingEvents (handleSubmit fd (Except.error err)) =
      (if missingInput fd then [] else [true, false])
  ∧ loadingEvents (handleAnalyze fd (Except.error err)).1 =
      (if missingInput fd then [] else [true, false])
  ∧ (∃ m, errorEvents (handleSubmit fd (Except.error err)) = [some m] ∧ m ≠ "")
  ∧ (∃ m, errorEvents (handleAnalyze fd (Except.error err)).1 = [some m] ∧ m ≠ "") := by
  cases hm : missingInput fd with
  | true =>
      refine ⟨?_, ?_,
        ⟨"Please provide either a repository URL or code content", ?_, by decide⟩,
        ⟨"Please provide either a repository URL or code content to analyze", ?_,
          by decide⟩⟩ <;>
        simp [handleSubmit, handleAnalyze, hm, loadingEvents, errorEvents]
  | false =>
      refine ⟨?_, ?_,
        ⟨resolveErrorMessage err "Failed to generate pipeline", ?_,
          resolveErrorMessage_ne_empty err _ (by decide)⟩,
        ⟨resolveErrorMessage err "Failed to analyze repository", ?_,
          resolveErrorMessage_ne_empty err _ (by decide)⟩⟩ <;>
        simp [handleSubmit, handleAnalyze, hm, loadingEvents, errorEvents]

/-- C4, counterexample: a rejection whose detail field is present but holds
the empty string, with transport message Network Error: the error observer
receives Network Error, not the present detail value, because the or-chain
of the source tests truthiness rather than presence. This refutes the claim
that a present detail field is always delivered. -/
theorem C4_counterexample :
    emptyDetailError.detail = some ""
  ∧ errorEvents (handleAnalyze sampleForm (Except.error emptyDetailError)).1 =
      [some "Network Error"] := by
  decide

/-- C4, amended: for every failed generate or analyze request issued past
validation, the delivered message is the resolved one, and the resolution
order is: the detail field of the server when present and nonempty,
otherwise the transport message when present and nonempty, otherwise the
generic fallback of the operation; the rejection carrying detail Not Found
yields exactly Not Found. -/
theorem C4_message_resolution (fd : FormData) (err : AxiosError)
    (hv : missingInput fd = false) :
    errorEvents (handleSubmit fd (Except.error err)) =
      [some (resolveErrorMessage err "Failed to generate pipeline")]
  ∧ errorEvents (handleAnalyze fd (Except.error err)).1 =
      [some (resolveErrorMessage err "Failed to analyze repository")]
  ∧ (∀ fb : String, resolveErrorMessage err fb =
      if optStrTruthy err.detail then err.detail.getD ""
      else if optStrTruthy err.message then err.message.getD ""
      else fb)
  ∧ errorEvents (handleAnalyze sampleForm (Except.error notFoundError)).1 =
      [some "Not Found"] := by
  refine ⟨?_, ?_, ?_, by decide⟩
  · simp [handleSubmit, hv, errorEvents]
  · simp [handleAnalyze, hv, errorEvents]
  · intro fb
    unfold resolveErrorMessage jsOr optStrTruthy strTruthy
    cases err.detail with
    | none =>
        cases err.message with
        | none => simp
        | some m => by_cases h : m = "" <;> simp [h]
    | some d =>
        by_cases h : d = ""
        · cases err.message with
          | none => simp [h]
          | some m => by_cases h2 : m = "" <;> simp [h, h2]
        · simp [h]

/-- C4, witness: the amended theorem applied to the sample form and the Not
Found rejection of scenario 3. -/
theorem C4_witness :
    errorEvents (handleSubmit sampleForm (Except.error notFoundError)) =
      [some (resolveErrorMessage notFoundError "Failed to generate pipeline")]
  ∧ errorEvents (handleAnalyze sampleForm (Except.error notFoundError)).1 =
      [some "Not Found"] :=
  ⟨(C4_message_resolution sampleForm notFoundError (by decide)).1,
   (C4_message_resolution sampleForm notFoundError (by decide)).2.2.2⟩

/-- C5, confirmed: the renderer yields the empty display exactly when the
pipeline prop is absent or its stages field is absent, and a document with
an empty stages list and no summary renders the pipeline container with
zero stage entries and no summary section rather than nothing. -/
theorem C5_empty_display_iff :
    PipelineVisualizer none = none
  ∧ (∀ doc : PipelineDocument, PipelineVisualizer (some doc) = none ↔ doc.stages = none)
  ∧ PipelineVisualizer (some ⟨some [], none, none⟩) =
      some { stageEntries := [], summarySection := none } := by
  refine ⟨rfl, ?_, by decide⟩
  intro doc
  cases h : doc.stages <;> simp [PipelineVisualizer, h]

/-- C6, confirmed: every type tag outside the seven recognized ones maps to
no icon and the renderer then falls back to the code quality icon; each of
the seven tags maps to its own icon; the badge label is the type tag with
every underscore replaced by a space and nothing else changed; and the
custom stage of scenario 4 gets the label custom type with a space and the
fallback icon. -/
theorem C6_icon_lookup_and_label :
    (∀ t : String, t ∉ recognizedTags → stageIcons t = none)
  ∧ (∀ stage : Stage,
        (renderStage stage).icon = (stageIcons stage.type).getD Icon.code_quality
      ∧ (renderStage stage).typeBadge = replaceUnderscores stage.type)
  ∧ stageIcons "unit_test_backend" = some Icon.unit_test_backend
  ∧ stageIcons "unit_test_frontend" = some Icon.unit_test_frontend
  ∧ stageIcons "integration_test_backend" = some Icon.integration_test_backend
  ∧ stageIcons "integration_test_frontend" = some Icon.integration_test_frontend
  ∧ stageIcons "code_quality" = some Icon.code_quality
  ∧ stageIcons "performance_test" = some Icon.performance_test
  ∧ stageIcons "security_test" = some Icon.security_test
  ∧ (renderStage customStage).typeBadge = "custom type"
  ∧ (renderStage customStage).icon = Icon.code_quality := by
  refine ⟨?_, fun stage => ⟨rfl, rfl⟩, by decide, by decide, by decide, by decide,
    by decide, by decide, by decide, by decide, by decide⟩
  intro t ht
  simp only [recognizedTags, List.mem_cons, List.not_mem_nil, or_false, not_or] at ht
  obtain ⟨h1, h2, h3, h4, h5, h6, h7⟩ := ht
  simp [stageIcons, h1, h2, h3, h4, h5, h6, h7]

/-- C6, witness: the lookup theorem applied to the unrecognized tag of
scenario 4. -/
theorem C6_witness : stageIcons "custom_type" = none :=
  C6_icon_lookup_and_label.1 "custom_type" (by decide)

/-- C7, confirmed: the analyze handler never changes the repository URL or
code content fields; a rejected analyze call leaves the whole form state
unchanged; and a successful analyze call past validation rewrites exactly
the language and framework fields from the response. -/
theorem C7_analyze_frame (fd : FormData) (net : Except AxiosError AnalyzeResponse)
    (err : AxiosError) (resp : AnalyzeResponse) :
    (handleAnalyze fd net).2.repository_url = fd.repository_url
  ∧ (handleAnalyze fd net).2.repository_content = fd.repository_content
  ∧ (handleAnalyze fd (Except.error err)).2 = fd
  ∧ (handleAnalyze fd (Except.ok resp)).2.language =
      (if missingInput fd then fd.language else stringOrEmpty resp.language)
  ∧ (handleAnalyze fd (Except.ok resp)).2.framework =
      (if missingInput fd then fd.framework else stringOrEmpty resp.framework) := by
  cases hm : missingInput fd <;> cases net <;> simp [handleAnalyze, hm]

/-- C8, confirmed: the renderer component holds no internal state, so it
embeds as a plain function of its pipeline prop, and rendering equal inputs
yields identical display output. -/
theorem C8_renderer_pure (p q : Option PipelineDocument) (h : p = q) :
    PipelineVisualizer p = PipelineVisualizer q :=
  congrArg PipelineVisualizer h

/-- C8, witness: rendering the sample document twice gives the same
display. -/
theorem C8_witness :
    PipelineVisualizer (some sampleDoc) = PipelineVisualizer (some sampleDoc) :=
  C8_renderer_pure (some sampleDoc) (some sampleDoc) rfl

/-- C9, confirmed: from any coordinator state holding a stored pipeline, a
submit or analyze on a form whose repository URL and code content are both
empty issues no network request, routes through the error observer with the
validation message, and leaves the pipeline slot cleared to none, so the
previously displayed pipeline disappears. -/
theorem C9_validation_clears_pipeline (s : AppState) (doc : PipelineDocument)
    (hp : s.pipeline = some doc) (lang fw : String)
    (netG : Except AxiosError PipelineDocument)
    (netA : Except AxiosError AnalyzeResponse) :
    requestEvents (handleSubmit ⟨"", "", lang, fw⟩ netG) = []
  ∧ (applyEvents s (handleSubmit ⟨"", "", lang, fw⟩ netG)).pipeline = none
  ∧ (applyEvents s (handleSubmit ⟨"", "", lang, fw⟩ netG)).error =
      some "Please provide either a repository URL or code content"
  ∧ requestEvents (handleAnalyze ⟨"", "", lang, fw⟩ netA).1 = []
  ∧ (applyEvents s (handleAnalyze ⟨"", "", lang, fw⟩ netA).1).pipeline = none
  ∧ (applyEvents s (handleAnalyze ⟨"", "", lang, fw⟩ netA).1).error =
      some "Please provide either a repository URL or code content to analyze" := by
  have hm : missingInput ⟨"", "", lang, fw⟩ = true := by simp [missingInput]
  simp [handleSubmit, handleAnalyze, hm, requestEvents, applyEvents, applyEvent,
    handleError]

/-- C9, witness: a coordinator state holding the sample document loses it
on an empty submit. -/
theorem C9_witness :
    (applyEvents ⟨some sampleDoc, false, none⟩
        (handleSubmit ⟨"", "", "", ""⟩ (Except.ok sampleDoc))).pipeline = none :=
  (C9_validation_clears_pipeline ⟨some sampleDoc, false, none⟩ sampleDoc rfl "" ""
    (Except.ok sampleDoc) (Except.ok ⟨none, none⟩)).2.1

/-- C10, confirmed: when a successful analyze response omits the language
or framework field or carries the empty string for it, the handler stores
the empty string into that form field, discarding whatever the user had
entered before. -/
theorem C10_falsy_fields_overwrite (fd : FormData) (resp : AnalyzeResponse)
    (hv : missingInput fd = false) :
    ((resp.language = none ∨ resp.language = some "") →
        (handleAnalyze fd (Except.ok resp)).2.language = "")
  ∧ ((resp.framework = none ∨ resp.framework = some "") →
        (handleAnalyze fd (Except.ok resp)).2.framework = "") := by
  constructor <;> rintro (h | h) <;>
    simp [handleAnalyze, hv, stringOrEmpty, jsOr, h]

/-- C10, witness: a form holding language Python and framework Django loses
both to empty strings when the analyze response omits language and carries
an empty framework. -/
theorem C10_witness :
    (handleAnalyze ⟨"https://github.com/user/repo", "", "Python", "Django"⟩
        (Except.ok ⟨none, some ""⟩)).2.language = ""
  ∧ (handleAnalyze ⟨"https://github.com/user/repo", "", "Python", "Django"⟩
        (Except.ok ⟨none, some ""⟩)).2.framework = "" :=
  ⟨(C10_falsy_fields_overwrite ⟨"https://github.com/user/repo", "", "Python", "Django"⟩
      ⟨none, some ""⟩ (by decide)).1 (Or.inl rfl),
   (C10_falsy_fields_overwrite ⟨"https://github.com/user/repo", "", "Python", "Django"⟩
      ⟨none, some ""⟩ (by decide)).2 (Or.inr rfl)⟩

end TestPipeline
